import Mathlib

/-!
A shallow embedding of the `Router` class of `src/web-router.ts` together
with proofs about its route matching, plugin sequencing, navigation
interception and initialization behaviour.

Modelling conventions:
* A route's `render` callback is pure from the router's point of view; we
  embed it by the value it returns (`render : α`).
* A plugin's `beforeNavigation` hook is embedded by the outcome of awaiting
  it: `none` when the plugin has no hook, `some (Except.ok ())` when the
  awaited call resolves, `some (Except.error e)` when it throws `e`.
* `URLPattern` is an environment capability (the source builds one per route
  from the route's `path` and only calls `test`): the pattern table stores
  the `path` string alongside its route, and matching is parametrised by an
  abstract `test : String → String → Bool` (pattern, pathname).
* Events dispatched on the router (`error`, `route-changed`) and the
  `console.warn` in the view-transition fallback are collected in a trace,
  in dispatch order; hook executions additionally leave `hookStart`/`hookEnd`
  markers carrying the index of the plugin in the executed list, so that
  the trace records when each awaited hook began and completed.
* The listeners registered on `window.navigation` and on `window` (popstate)
  are embedded as counters, and `document.title` as a string field, so that
  the effect of `init` on the environment is observable.
-/

namespace WebRouter

deriving instance DecidableEq for Except

/-- Plugin record: optional name and optional before-navigation hook,
embedded by the hook's awaited outcome. -/
structure RouterPlugin where
  name : Option String := none
  beforeNavigation : Option (Except String Unit) := none
deriving DecidableEq

/-- Route configuration record: `path` pattern string, `title`, the value
produced by the `render` callback, and optional per-route plugins. -/
structure Route (α : Type) where
  path : String
  title : String
  render : α
  plugins : Option (List RouterPlugin) := none
deriving DecidableEq

/-- Router constructor options: the route list and optional global plugins. -/
structure RouterOptions (α : Type) where
  routes : List (Route α)
  plugins : Option (List RouterPlugin) := none
deriving DecidableEq

/-- The state of one `Router` instance, together with the environment state
it mutates (`document.title`) and the listener registrations it performs. -/
structure Router (α : Type) where
  routes : List (Route α)
  patterns : List (String × Route α)
  currentRoute : Option (Route α)
  initialized : Bool
  plugins : List RouterPlugin
  navListeners : Nat
  popstateListeners : Nat
  documentTitle : String
deriving DecidableEq

/-- `new Router(options)`: stores configuration only; `documentTitle₀` is
whatever the document's title was beforehand. -/
def Router.construct (options : RouterOptions α) (documentTitle₀ : String) : Router α :=
  { routes := options.routes
    patterns := []
    currentRoute := none
    initialized := false
    plugins := options.plugins.getD []
    navListeners := 0
    popstateListeners := 0
    documentTitle := documentTitle₀ }

/-- `Router.matchRoute`: iterate the pattern table in insertion order and
return the route of the first pattern whose `test` accepts the pathname. -/
def Router.matchRoute (test : String → String → Bool)
    (patterns : List (String × Route α)) (pathname : String) : Option (Route α) :=
  match patterns with
  | [] => none
  | (pat, route) :: rest =>
      if test pat pathname then some route
      else Router.matchRoute test rest pathname

/-- Observable events of a navigation-handling run, in dispatch order.
`hookStart i p` / `hookEnd i p` mark the awaiting of plugin `p`'s hook at
index `i` of the executed plugin list; `errorEv` is the `error`
CustomEvent with its `{ error, plugin, route }` detail (tagged with the
index of the failing execution); `routeChanged` is the `route-changed`
CustomEvent; `warn` is the view-transition-failure console warning. -/
inductive Ev (α : Type) where
  | hookStart : Nat → RouterPlugin → Ev α
  | hookEnd : Nat → RouterPlugin → Ev α
  | errorEv : Nat → String → RouterPlugin → Route α → Ev α
  | routeChanged : Route α → Ev α
  | warn : Ev α
deriving DecidableEq

/-- Trace of one iteration of the plugin loop: skip when there is no hook;
otherwise the hook starts and completes, and a failure additionally
dispatches the `error` event. -/
def pluginEvents (route : Route α) (i : Nat) (p : RouterPlugin) : List (Ev α) :=
  match p.beforeNavigation with
  | none => []
  | some (Except.ok _) => [Ev.hookStart i p, Ev.hookEnd i p]
  | some (Except.error e) => [Ev.hookStart i p, Ev.hookEnd i p, Ev.errorEv i e p route]

/-- Trace of the plugin loop of `handleNavigation`, starting at index `n`:
each plugin's hook is awaited to completion before the next begins. -/
def hookTrace (route : Route α) : Nat → List RouterPlugin → List (Ev α)
  | _, [] => []
  | n, p :: ps => pluginEvents route n p ++ hookTrace route (n + 1) ps

/-- Environment facts a navigation-handling run depends on: the URLPattern
test capability, whether `startViewTransition` exists in `document`, and
whether requesting/awaiting the transition fails (in which case the source
warns and falls back to a direct DOM update). -/
structure NavEnv where
  test : String → String → Bool
  hasStartViewTransition : Bool
  transitionFails : Bool

/-- `Router.handleNavigation`: run global plugins then route plugins
sequentially, update the document title when the route's title is truthy
(non-empty), then commit `currentRoute` and dispatch `route-changed` —
directly when the view transition is skipped or unavailable, inside the
transition otherwise, with a warn-and-direct-update fallback on failure. -/
def Router.handleNavigation (env : NavEnv) (st : Router α) (route : Route α)
    (skipViewTransition : Bool) : Router α × List (Ev α) :=
  let allPlugins := st.plugins ++ route.plugins.getD []
  let ptrace := hookTrace route 0 allPlugins
  let st₁ := if route.title = "" then st else { st with documentTitle := route.title }
  let st₂ := { st₁ with currentRoute := some route }
  let tailTrace :=
    if skipViewTransition then [Ev.routeChanged route]
    else if env.hasStartViewTransition then
      if env.transitionFails then [Ev.warn, Ev.routeChanged route]
      else [Ev.routeChanged route]
    else [Ev.routeChanged route]
  (st₂, ptrace ++ tailTrace)

/-- Current location: pathname and origin. -/
structure Location where
  pathname : String
  origin : String
deriving DecidableEq

/-- `Router.init`: a no-op when already initialized; otherwise build the
pattern table in declaration order, set the initial matched route, register
one listener on the navigation observer and one popstate listener, mark
initialized, and run the handling sequence for the initial route if any. -/
def Router.init (env : NavEnv) (loc : Location) (st : Router α) :
    Router α × List (Ev α) :=
  if st.initialized then (st, [])
  else
    match Router.matchRoute env.test (st.routes.map fun route => (route.path, route))
        loc.pathname with
    | some route =>
        Router.handleNavigation env
          { st with
            patterns := st.routes.map fun route => (route.path, route)
            currentRoute := some route
            navListeners := st.navListeners + 1
            popstateListeners := st.popstateListeners + 1
            initialized := true }
          route false
    | none =>
        ({ st with
            patterns := st.routes.map fun route => (route.path, route)
            currentRoute := none
            navListeners := st.navListeners + 1
            popstateListeners := st.popstateListeners + 1
            initialized := true }, [])

/-- The observable fields of a `navigate` event from the navigation
observer, as the handler reads them (`new URL(event.destination.url)`
parsed into origin and pathname, plus the three guard flags). -/
structure NavigateEvent where
  destOrigin : String
  destPathname : String
  downloadRequest : Bool
  formData : Bool
  canIntercept : Bool
deriving DecidableEq

/-- The navigate-listener's interception decision: `some route` when the
handler claims interception for `route`, `none` when it returns and leaves
default browser handling in place. -/
def Router.interceptDecision (env : NavEnv) (st : Router α) (loc : Location)
    (ev : NavigateEvent) : Option (Route α) :=
  if ev.destOrigin ≠ loc.origin then none
  else if ev.downloadRequest || ev.formData then none
  else if !ev.canIntercept then none
  else Router.matchRoute env.test st.patterns ev.destPathname

/-- The navigate-listener itself: on interception, the intercept handler
awaits `handleNavigation` for the matched route; otherwise nothing happens. -/
def Router.onNavigate (env : NavEnv) (loc : Location) (ev : NavigateEvent)
    (st : Router α) : Router α × List (Ev α) :=
  match Router.interceptDecision env st loc ev with
  | some route => Router.handleNavigation env st route false
  | none => (st, [])

/-- The popstate listener: re-match the current pathname and run the
handling sequence when the match differs from `currentRoute` by path. -/
def Router.popstateHandler (env : NavEnv) (loc : Location) (st : Router α) :
    Router α × List (Ev α) :=
  match Router.matchRoute env.test st.patterns loc.pathname with
  | some route =>
      if st.currentRoute.map Route.path ≠ some route.path then
        Router.handleNavigation env st route false
      else (st, [])
  | none => (st, [])

/-- `Router.render`: the current route's render output, or `none`. -/
def Router.render (st : Router α) : Option α :=
  match st.currentRoute with
  | none => none
  | some route => some route.render

/-- `Router.getCurrentRoute`: the current route, or `none`. -/
def Router.getCurrentRoute (st : Router α) : Option (Route α) :=
  st.currentRoute

/-- The trailing part of a navigation-handling trace, after the plugin
loop: the commit event, preceded by the fallback warning when the view
transition was attempted and failed. -/
def commitTail (env : NavEnv) (route : Route α) (skipViewTransition : Bool) : List (Ev α) :=
  if skipViewTransition then [Ev.routeChanged route]
  else if env.hasStartViewTransition then
    if env.transitionFails then [Ev.warn, Ev.routeChanged route]
    else [Ev.routeChanged route]
  else [Ev.routeChanged route]

theorem matchRoute_eq_find (test : String → String → Bool)
    (patterns : List (String × Route α)) (pathname : String) :
    Router.matchRoute test patterns pathname
      = ((patterns.find? fun pr => test pr.1 pathname).map Prod.snd) := by
  induction patterns with
  | nil => rfl
  | cons pr rest ih =>
      obtain ⟨pat, route⟩ := pr
      cases h : test pat pathname <;>
        simp [Router.matchRoute, List.find?, h, ih]

theorem matchRoute_eq_none_iff (test : String → String → Bool)
    (patterns : List (String × Route α)) (pathname : String) :
    Router.matchRoute test patterns pathname = none
      ↔ ∀ q ∈ patterns, test q.1 pathname = false := by
  rw [matchRoute_eq_find]
  simp [List.find?_eq_none]

theorem matchRoute_mem {test : String → String → Bool}
    {patterns : List (String × Route α)} {pathname : String} {route : Route α}
    (h : Router.matchRoute test patterns pathname = some route) :
    route ∈ patterns.map Prod.snd := by
  rw [matchRoute_eq_find] at h
  rw [Option.map_eq_some'] at h
  obtain ⟨pr, hfind, rfl⟩ := h
  exact List.mem_map_of_mem Prod.snd (List.mem_of_find?_eq_some hfind)

theorem handleNavigation_fst (env : NavEnv) (st : Router α) (route : Route α)
    (skip : Bool) :
    (Router.handleNavigation env st route skip).1 =
      { (if route.title = "" then st else { st with documentTitle := route.title }) with
        currentRoute := some route } := rfl

theorem handleNavigation_snd (env : NavEnv) (st : Router α) (route : Route α)
    (skip : Bool) :
    (Router.handleNavigation env st route skip).2 =
      hookTrace route 0 (st.plugins ++ route.plugins.getD []) ++ commitTail env route skip := rfl

theorem handleNavigation_fields (env : NavEnv) (st : Router α) (route : Route α)
    (skip : Bool) :
    (Router.handleNavigation env st route skip).1.currentRoute = some route ∧
    (Router.handleNavigation env st route skip).1.patterns = st.patterns ∧
    (Router.handleNavigation env st route skip).1.routes = st.routes ∧
    (Router.handleNavigation env st route skip).1.plugins = st.plugins ∧
    (Router.handleNavigation env st route skip).1.initialized = st.initialized ∧
    (Router.handleNavigation env st route skip).1.navListeners = st.navListeners ∧
    (Router.handleNavigation env st route skip).1.popstateListeners = st.popstateListeners ∧
    (Router.handleNavigation env st route skip).1.documentTitle
      = (if route.title = "" then st.documentTitle else route.title) := by
  rw [handleNavigation_fst]
  by_cases h : route.title = "" <;> simp [h]

theorem mem_commitTail {env : NavEnv} {route : Route α} {skip : Bool} {e : Ev α}
    (h : e ∈ commitTail env route skip) :
    e = Ev.warn ∨ e = Ev.routeChanged route := by
  unfold commitTail at h
  split at h
  · simp at h; simp [h]
  · split at h
    · split at h <;> simp at h <;> tauto
    · simp at h; simp [h]

theorem routeChanged_mem_commitTail (env : NavEnv) (route : Route α) (skip : Bool) :
    Ev.routeChanged route ∈ commitTail env route skip := by
  unfold commitTail
  split
  · simp
  · split
    · split <;> simp
    · simp

theorem init_of_initialized (env : NavEnv) (loc : Location) (st : Router α)
    (h : st.initialized = true) : Router.init env loc st = (st, []) := by
  simp [Router.init, h]

theorem init_of_match_some {st : Router α} {route : Route α} (env : NavEnv) (loc : Location)
    (h : st.initialized = false)
    (hm : Router.matchRoute env.test (st.routes.map fun route => (route.path, route))
        loc.pathname = some route) :
    Router.init env loc st =
      Router.handleNavigation env
        { st with
          patterns := st.routes.map fun route => (route.path, route)
          currentRoute := some route
          navListeners := st.navListeners + 1
          popstateListeners := st.popstateListeners + 1
          initialized := true }
        route false := by
  unfold Router.init
  rw [h]
  simp only [Bool.false_eq_true, if_false]
  rw [hm]

theorem init_of_match_none {st : Router α} (env : NavEnv) (loc : Location)
    (h : st.initialized = false)
    (hm : Router.matchRoute env.test (st.routes.map fun route => (route.path, route))
        loc.pathname = none) :
    Router.init env loc st =
      ({ st with
          patterns := st.routes.map fun route => (route.path, route)
          currentRoute := none
          navListeners := st.navListeners + 1
          popstateListeners := st.popstateListeners + 1
          initialized := true }, []) := by
  unfold Router.init
  rw [h]
  simp only [Bool.false_eq_true, if_false]
  rw [hm]

theorem commitTail_getLast (env : NavEnv) (route : Route α) (skip : Bool) :
    (commitTail env route skip).getLast? = some (Ev.routeChanged route) := by
  unfold commitTail
  split
  · rfl
  · split
    · split <;> rfl
    · rfl

/-- The plugin-loop index an event belongs to, when it has one. -/
def Ev.idx : Ev α → Option Nat
  | Ev.hookStart i _ => some i
  | Ev.hookEnd i _ => some i
  | Ev.errorEv i _ _ _ => some i
  | Ev.routeChanged _ => none
  | Ev.warn => none

theorem mem_pluginEvents_idx {route : Route α} {n : Nat} {p : RouterPlugin} {e : Ev α}
    (h : e ∈ pluginEvents route n p) : e.idx = some n := by
  unfold pluginEvents at h
  cases hp : p.beforeNavigation with
  | none => rw [hp] at h; simp at h
  | some v =>
      rw [hp] at h
      cases v with
      | ok u => simp at h; rcases h with rfl | rfl <;> rfl
      | error err => simp at h; rcases h with rfl | rfl | rfl <;> rfl

theorem mem_hookTrace_idx {route : Route α} {plugs : List RouterPlugin} {n : Nat}
    {e : Ev α} (h : e ∈ hookTrace route n plugs) :
    ∃ k, e.idx = some k ∧ n ≤ k := by
  induction plugs generalizing n with
  | nil => simp [hookTrace] at h
  | cons q rest ih =>
      rw [hookTrace, List.mem_append] at h
      rcases h with h | h
      · exact ⟨n, mem_pluginEvents_idx h, Nat.le_refl n⟩
      · obtain ⟨k, hk, hle⟩ := ih h
        exact ⟨k, hk, Nat.le_of_succ_le hle⟩

theorem hookTrace_nil (route : Route α) (n : Nat) : hookTrace route n [] = [] := rfl

theorem hookTrace_cons (route : Route α) (n : Nat) (p : RouterPlugin)
    (ps : List RouterPlugin) :
    hookTrace route n (p :: ps) = pluginEvents route n p ++ hookTrace route (n + 1) ps := rfl

theorem hookStart_mem_pluginEvents {p : RouterPlugin} (route : Route α) (n : Nat)
    (hhook : p.beforeNavigation.isSome) :
    Ev.hookStart n p ∈ pluginEvents route n p := by
  cases hp : p.beforeNavigation with
  | none => rw [hp] at hhook; simp at hhook
  | some v => cases v <;> simp [pluginEvents, hp]

theorem hookStart_mem_hookTrace {plugs : List RouterPlugin} {j : Nat} {q : RouterPlugin}
    (route : Route α) (n : Nat)
    (hget : plugs[j]? = some q) (hhook : q.beforeNavigation.isSome) :
    Ev.hookStart (n + j) q ∈ hookTrace route n plugs := by
  induction plugs generalizing n j with
  | nil => simp at hget
  | cons x rest ih =>
      rw [hookTrace_cons]
      cases j with
      | zero =>
          have hxq : x = q := by simpa using hget
          subst hxq
          apply List.mem_append_left
          exact hookStart_mem_pluginEvents route n hhook
      | succ j =>
          rw [List.getElem?_cons_succ] at hget
          apply List.mem_append_right
          have harith : n + (j + 1) = (n + 1) + j := by omega
          rw [harith]
          exact ih (n + 1) hget

theorem hookEnd_sublist_pluginEvents {p : RouterPlugin} (route : Route α) (n : Nat)
    (hhook : p.beforeNavigation.isSome) :
    List.Sublist [Ev.hookEnd n p] (pluginEvents route n p) := by
  rw [List.singleton_sublist]
  cases hp : p.beforeNavigation with
  | none => rw [hp] at hhook; simp at hhook
  | some v => cases v <;> simp [pluginEvents, hp]

theorem hookTrace_count_errorEv [DecidableEq α] {plugs : List RouterPlugin} {i : Nat}
    {p : RouterPlugin} {e : String} (route : Route α) (n : Nat)
    (hget : plugs[i]? = some p)
    (hfail : p.beforeNavigation = some (Except.error e)) :
    (hookTrace route n plugs).count (Ev.errorEv (n + i) e p route) = 1 := by
  induction plugs generalizing n i with
  | nil => simp at hget
  | cons q rest ih =>
      rw [hookTrace_cons, List.count_append]
      cases i with
      | zero =>
          have hqp : q = p := by simpa using hget
          subst hqp
          have h0 : (hookTrace route (n + 1) rest).count (Ev.errorEv (n + 0) e q route) = 0 := by
            rw [List.count_eq_zero]
            intro hmem
            obtain ⟨k, hk, hle⟩ := mem_hookTrace_idx hmem
            simp [Ev.idx] at hk
            omega
          rw [h0]
          simp [pluginEvents, hfail, List.count_cons]
      | succ i =>
          rw [List.getElem?_cons_succ] at hget
          have h0 : (pluginEvents route n q).count (Ev.errorEv (n + (i + 1)) e p route) = 0 := by
            rw [List.count_eq_zero]
            intro hmem
            have := mem_pluginEvents_idx hmem
            simp [Ev.idx] at this
          rw [h0]
          have hrec := ih (n + 1) hget
          have harith : (n + 1) + i = n + (i + 1) := by omega
          rw [harith] at hrec
          omega

theorem hookTrace_sequential {plugs : List RouterPlugin} {i j : Nat}
    {p q : RouterPlugin} (route : Route α) (n : Nat) (hij : i < j)
    (hi : plugs[i]? = some p) (hpi : p.beforeNavigation.isSome)
    (hj : plugs[j]? = some q) (hqj : q.beforeNavigation.isSome) :
    List.Sublist [Ev.hookEnd (n + i) p, Ev.hookStart (n + j) q]
      (hookTrace route n plugs) := by
  induction plugs generalizing n i j with
  | nil => simp at hi
  | cons x rest ih =>
      obtain ⟨j, rfl⟩ : ∃ j0, j = j0 + 1 := ⟨j - 1, by omega⟩
      rw [List.getElem?_cons_succ] at hj
      rw [hookTrace_cons]
      cases i with
      | zero =>
          have hxp : x = p := by simpa using hi
          subst hxp
          have h1 : List.Sublist [Ev.hookEnd (n + 0) x] (pluginEvents route n x) := by
            rw [Nat.add_zero]
            exact hookEnd_sublist_pluginEvents route n hpi
          have h2 : List.Sublist [Ev.hookStart (n + (j + 1)) q]
              (hookTrace route (n + 1) rest) := by
            rw [List.singleton_sublist]
            have harith : n + (j + 1) = (n + 1) + j := by omega
            rw [harith]
            exact hookStart_mem_hookTrace route (n + 1) hj hqj
          exact List.Sublist.append h1 h2
      | succ i =>
          rw [List.getElem?_cons_succ] at hi
          refine List.Sublist.trans ?_ (List.sublist_append_right _ _)
          have hrec := ih (n + 1) (by omega) hi hj
          have ha1 : (n + 1) + i = n + (i + 1) := by omega
          have ha2 : (n + 1) + j = n + (j + 1) := by omega
          rw [ha1, ha2] at hrec
          exact hrec

/-- Projection picking hook-start markers out of a trace. -/
def Ev.startOf : Ev α → Option (Nat × RouterPlugin)
  | Ev.hookStart i p => some (i, p)
  | Ev.hookEnd _ _ => none
  | Ev.errorEv _ _ _ _ => none
  | Ev.routeChanged _ => none
  | Ev.warn => none

/-- The hooks a trace recorded as started, in trace order, each with the
index it was executed at. -/
def startedHooks (t : List (Ev α)) : List (Nat × RouterPlugin) :=
  t.filterMap Ev.startOf

theorem startedHooks_append (s t : List (Ev α)) :
    startedHooks (s ++ t) = startedHooks s ++ startedHooks t := by
  simp [startedHooks, List.filterMap_append]

theorem startedHooks_pluginEvents (route : Route α) (n : Nat) (p : RouterPlugin) :
    startedHooks (pluginEvents route n p)
      = if p.beforeNavigation.isSome then [(n, p)] else [] := by
  cases hp : p.beforeNavigation with
  | none => simp [pluginEvents, startedHooks, hp]
  | some v => cases v <;> simp [pluginEvents, startedHooks, hp, Ev.startOf]

theorem startedHooks_hookTrace (route : Route α) (n : Nat)
    (plugs : List RouterPlugin) :
    startedHooks (hookTrace route n plugs)
      = (plugs.enumFrom n).filter fun ip => ip.2.beforeNavigation.isSome := by
  induction plugs generalizing n with
  | nil => simp [hookTrace_nil, startedHooks]
  | cons p rest ih =>
      rw [hookTrace_cons, startedHooks_append, startedHooks_pluginEvents,
        List.enumFrom_cons, List.filter_cons, ih]
      by_cases hp : p.beforeNavigation.isSome <;> simp [hp]

theorem startedHooks_commitTail (env : NavEnv) (route : Route α) (skip : Bool) :
    startedHooks (commitTail env route skip) = [] := by
  unfold commitTail
  split
  · rfl
  · split
    · split <;> rfl
    · rfl

/-- C1: `matchRoute` scans the pattern table in insertion order — built by
`init` from the constructor's route list in declaration order — and returns
the route of the first pattern accepted by the environment's test,
returning `none` exactly when no registered pattern accepts the pathname;
when one matching entry is preceded only by non-matching ones, its route is
the result. -/
theorem matchRoute_first_match_wins (α : Type) : ∀ (test : String → String → Bool)
    (patterns : List (String × Route α)) (pathname : String),
    (Router.matchRoute test patterns pathname
        = ((patterns.find? fun pr => test pr.1 pathname).map Prod.snd))
    ∧ (Router.matchRoute test patterns pathname = none
        ↔ ∀ q ∈ patterns, test q.1 pathname = false)
    ∧ (∀ (pre post : List (String × Route α)) (pat : String) (route : Route α),
        patterns = pre ++ (pat, route) :: post →
        (∀ q ∈ pre, test q.1 pathname = false) → test pat pathname = true →
        Router.matchRoute test patterns pathname = some route)
    ∧ (∀ (options : RouterOptions α) (env : NavEnv) (loc : Location) (d : String),
        (Router.init env loc (Router.construct options d)).1.patterns
          = options.routes.map fun route => (route.path, route)) := by
  intro test patterns pathname
  refine ⟨matchRoute_eq_find test patterns pathname,
    matchRoute_eq_none_iff test patterns pathname, ?_, ?_⟩
  · intro pre post pat route hpat hpre htest
    subst hpat
    induction pre with
    | nil => simp [Router.matchRoute, htest]
    | cons q rest ih =>
        obtain ⟨qpat, qroute⟩ := q
        have hq : test qpat pathname = false := hpre (qpat, qroute) (by simp)
        simp only [List.cons_append, Router.matchRoute, hq]
        simp only [Bool.false_eq_true, if_false]
        exact ih fun q hq' => hpre q (List.mem_cons_of_mem _ hq')
  · intro options env loc d
    rcases hm : Router.matchRoute env.test
        ((Router.construct options d).routes.map fun route => (route.path, route))
        loc.pathname with _ | route
    · rw [init_of_match_none env loc rfl hm]
      rfl
    · rw [init_of_match_some env loc rfl hm]
      exact (handleNavigation_fields _ _ _ _).2.1

/-- C1 witness: with an equality test, the table `[("/a", r1), ("/a", r2)]`
(both entries matching `"/a"`) resolves to the first-declared route. -/
theorem matchRoute_first_match_wins_witness :
    Router.matchRoute (fun pat p => pat == p)
        [("/a", ({ path := "/a", title := "A", render := 1 } : Route Nat)),
         ("/a", ({ path := "/a", title := "B", render := 2 } : Route Nat))] "/a"
      = some { path := "/a", title := "A", render := 1 } :=
  ((matchRoute_first_match_wins Nat (fun pat p => pat == p)
      [("/a", { path := "/a", title := "A", render := 1 }),
       ("/a", { path := "/a", title := "B", render := 2 })] "/a").2.2.1
    [] [("/a", { path := "/a", title := "B", render := 2 })]
    "/a" { path := "/a", title := "A", render := 1 } rfl
    (by intro q hq; simp at hq) (by decide))

/-- C3: in every navigation-handling run, the hooks recorded as started are
exactly the hook-bearing entries of the concatenation of the global plugins
followed by the route's plugins, in declared order; and for any two plugin
positions i < j, plugin i's hook completes before plugin j's hook starts. -/
theorem plugins_sequential_in_order (env : NavEnv) (st : Router α) (route : Route α)
    (skip : Bool) :
    (startedHooks (Router.handleNavigation env st route skip).2
        = ((st.plugins ++ route.plugins.getD []).enumFrom 0).filter
            (fun ip => ip.2.beforeNavigation.isSome))
    ∧ (∀ (i j : Nat) (p q : RouterPlugin), i < j →
        (st.plugins ++ route.plugins.getD [])[i]? = some p →
        p.beforeNavigation.isSome →
        (st.plugins ++ route.plugins.getD [])[j]? = some q →
        q.beforeNavigation.isSome →
        List.Sublist [Ev.hookEnd i p, Ev.hookStart j q]
          (Router.handleNavigation env st route skip).2) := by
  constructor
  · rw [handleNavigation_snd, startedHooks_append, startedHooks_hookTrace,
      startedHooks_commitTail, List.append_nil]
  · intro i j p q hij hi hpi hj hqj
    rw [handleNavigation_snd]
    refine List.Sublist.trans ?_ (List.sublist_append_left _ _)
    have h := hookTrace_sequential route 0 hij hi hpi hj hqj
    simpa using h

/-- C3 witness: with two global hook-bearing plugins, the first hook's end
precedes the second hook's start in the trace, and the started list is the
two plugins in order. -/
theorem plugins_sequential_in_order_witness :
    (startedHooks (Router.handleNavigation
          { test := fun pat p => pat == p, hasStartViewTransition := true,
            transitionFails := false }
          { routes := [], patterns := [], currentRoute := none, initialized := true,
            plugins := [{ name := some "a", beforeNavigation := some (Except.ok ()) },
                        { name := some "b", beforeNavigation := some (Except.ok ()) }],
            navListeners := 1, popstateListeners := 1, documentTitle := "t" }
          ({ path := "/", title := "Home", render := (0 : Nat) } : Route Nat) false).2
        = [(0, { name := some "a", beforeNavigation := some (Except.ok ()) }),
           (1, { name := some "b", beforeNavigation := some (Except.ok ()) })])
    ∧ List.Sublist
        [Ev.hookEnd 0 { name := some "a", beforeNavigation := some (Except.ok ()) },
         Ev.hookStart 1 { name := some "b", beforeNavigation := some (Except.ok ()) }]
        (Router.handleNavigation
          { test := fun pat p => pat == p, hasStartViewTransition := true,
            transitionFails := false }
          { routes := [], patterns := [], currentRoute := none, initialized := true,
            plugins := [{ name := some "a", beforeNavigation := some (Except.ok ()) },
                        { name := some "b", beforeNavigation := some (Except.ok ()) }],
            navListeners := 1, popstateListeners := 1, documentTitle := "t" }
          ({ path := "/", title := "Home", render := (0 : Nat) } : Route Nat) false).2 := by
  constructor
  · exact (plugins_sequential_in_order _ _ _ _).1.trans (by decide)
  · exact (plugins_sequential_in_order _ _ _ _).2 0 1 _ _ (by decide)
      (by decide) (by decide) (by decide) (by decide)

/-- C2: when the plugin at position i of the executed list fails with
error e, the run's trace contains exactly one `error` event carrying e,
that plugin and the target route; every later hook-bearing plugin still
starts; the target route becomes the current route; and a `route-changed`
event fires. -/
theorem plugin_failure_does_not_block [DecidableEq α] (env : NavEnv) (st : Router α)
    (route : Route α) (skip : Bool) (i : Nat) (p : RouterPlugin) (e : String)
    (hget : (st.plugins ++ route.plugins.getD [])[i]? = some p)
    (hfail : p.beforeNavigation = some (Except.error e)) :
    ((Router.handleNavigation env st route skip).2.count (Ev.errorEv i e p route) = 1)
    ∧ (∀ (j : Nat) (q : RouterPlugin), i < j →
        (st.plugins ++ route.plugins.getD [])[j]? = some q →
        q.beforeNavigation.isSome →
        Ev.hookStart j q ∈ (Router.handleNavigation env st route skip).2)
    ∧ (Router.handleNavigation env st route skip).1.currentRoute = some route
    ∧ Ev.routeChanged route ∈ (Router.handleNavigation env st route skip).2 := by
  refine ⟨?_, ?_, (handleNavigation_fields env st route skip).1, ?_⟩
  · rw [handleNavigation_snd, List.count_append]
    have h1 := hookTrace_count_errorEv (i := i) route 0 hget hfail
    rw [Nat.zero_add] at h1
    have h2 : (commitTail env route skip).count (Ev.errorEv i e p route) = 0 := by
      rw [List.count_eq_zero]
      intro hmem
      rcases mem_commitTail hmem with h | h <;> simp at h
    omega
  · intro j q hij hj hqj
    rw [handleNavigation_snd]
    apply List.mem_append_left
    have h := hookStart_mem_hookTrace route 0 hj hqj
    rwa [Nat.zero_add] at h
  · rw [handleNavigation_snd]
    exact List.mem_append_right _ (routeChanged_mem_commitTail env route skip)

/-- C2 witness: global plugin a succeeds, global plugin b fails with
"boom"; the run emits exactly one error event for b, still commits the
route and fires route-changed. -/
theorem plugin_failure_does_not_block_witness :
    ((Router.handleNavigation
          { test := fun pat p => pat == p, hasStartViewTransition := true,
            transitionFails := false }
          { routes := [], patterns := [], currentRoute := none, initialized := true,
            plugins := [{ name := some "a", beforeNavigation := some (Except.ok ()) },
                        { name := some "b", beforeNavigation := some (Except.error "boom") }],
            navListeners := 1, popstateListeners := 1, documentTitle := "t" }
          ({ path := "/", title := "Home", render := (0 : Nat) } : Route Nat) false).2.count
        (Ev.errorEv 1 "boom"
          { name := some "b", beforeNavigation := some (Except.error "boom") }
          { path := "/", title := "Home", render := (0 : Nat) }) = 1)
    ∧ (Router.handleNavigation
          { test := fun pat p => pat == p, hasStartViewTransition := true,
            transitionFails := false }
          { routes := [], patterns := [], currentRoute := none, initialized := true,
            plugins := [{ name := some "a", beforeNavigation := some (Except.ok ()) },
                        { name := some "b", beforeNavigation := some (Except.error "boom") }],
            navListeners := 1, popstateListeners := 1, documentTitle := "t" }
          ({ path := "/", title := "Home", render := (0 : Nat) } : Route Nat) false).1.currentRoute
        = some { path := "/", title := "Home", render := (0 : Nat) } := by
  have h := plugin_failure_does_not_block
    (α := Nat)
    { test := fun pat p => pat == p, hasStartViewTransition := true,
      transitionFails := false }
    { routes := [], patterns := [], currentRoute := none, initialized := true,
      plugins := [{ name := some "a", beforeNavigation := some (Except.ok ()) },
                  { name := some "b", beforeNavigation := some (Except.error "boom") }],
      navListeners := 1, popstateListeners := 1, documentTitle := "t" }
    { path := "/", title := "Home", render := (0 : Nat) } false 1
    { name := some "b", beforeNavigation := some (Except.error "boom") } "boom"
    (by decide) (by decide)
  exact ⟨h.1, h.2.2.1⟩

/-- Recognizer for `route-changed` events. -/
def isRouteChanged : Ev α → Bool
  | Ev.routeChanged _ => true
  | Ev.hookStart _ _ => false
  | Ev.hookEnd _ _ => false
  | Ev.errorEv _ _ _ _ => false
  | Ev.warn => false

theorem isRouteChanged_idx {e : Ev α} (h : isRouteChanged e = true) : e.idx = none := by
  cases e <;> simp [isRouteChanged, Ev.idx] at h ⊢

theorem countP_isRouteChanged_hookTrace (route : Route α) (n : Nat)
    (plugs : List RouterPlugin) :
    (hookTrace route n plugs).countP isRouteChanged = 0 := by
  rw [List.countP_eq_zero]
  intro e hmem hchanged
  obtain ⟨k, hk, _⟩ := mem_hookTrace_idx hmem
  rw [isRouteChanged_idx hchanged] at hk
  simp at hk

theorem countP_isRouteChanged_commitTail (env : NavEnv) (route : Route α)
    (skip : Bool) :
    (commitTail env route skip).countP isRouteChanged = 1 := by
  unfold commitTail
  split
  · simp [List.countP_cons, isRouteChanged]
  · split
    · split <;> simp [List.countP_cons, isRouteChanged]
    · simp [List.countP_cons, isRouteChanged]

theorem init_fst_fields (env : NavEnv) (loc : Location) (st : Router α)
    (h : st.initialized = false) :
    ((Router.init env loc st).1.navListeners = st.navListeners + 1)
    ∧ ((Router.init env loc st).1.popstateListeners = st.popstateListeners + 1)
    ∧ ((Router.init env loc st).1.patterns
        = st.routes.map fun route => (route.path, route))
    ∧ ((Router.init env loc st).1.initialized = true)
    ∧ ((Router.init env loc st).1.routes = st.routes)
    ∧ ((Router.init env loc st).1.plugins = st.plugins) := by
  rcases hm : Router.matchRoute env.test (st.routes.map fun route => (route.path, route))
      loc.pathname with _ | route
  · rw [init_of_match_none env loc h hm]
    exact ⟨rfl, rfl, rfl, rfl, rfl, rfl⟩
  · rw [init_of_match_some env loc h hm]
    have hf := handleNavigation_fields env
      { st with
        patterns := st.routes.map fun route => (route.path, route)
        currentRoute := some route
        navListeners := st.navListeners + 1
        popstateListeners := st.popstateListeners + 1
        initialized := true }
      route false
    exact ⟨hf.2.2.2.2.2.1, hf.2.2.2.2.2.2.1, hf.2.1, hf.2.2.2.2.1, hf.2.2.1,
      hf.2.2.2.1⟩

/-- C4 (amended): starting from a freshly constructed router whose startup
pathname matches a registered route, init fires exactly one route-changed
event, carrying that route, and — when the route's title is non-empty —
leaves the document title equal to it. -/
theorem init_fires_route_changed_once (env : NavEnv) (loc : Location)
    (options : RouterOptions α) (d : String) (route : Route α)
    (hm : Router.matchRoute env.test (options.routes.map fun r => (r.path, r))
        loc.pathname = some route) :
    ((Router.init env loc (Router.construct options d)).2.countP isRouteChanged = 1)
    ∧ Ev.routeChanged route ∈ (Router.init env loc (Router.construct options d)).2
    ∧ (route.title ≠ "" →
        (Router.init env loc (Router.construct options d)).1.documentTitle
          = route.title) := by
  have hm' : Router.matchRoute env.test
      ((Router.construct options d).routes.map fun r => (r.path, r))
      loc.pathname = some route := hm
  rw [init_of_match_some env loc rfl hm']
  refine ⟨?_, ?_, ?_⟩
  · rw [handleNavigation_snd, List.countP_append, countP_isRouteChanged_hookTrace,
      countP_isRouteChanged_commitTail]
  · rw [handleNavigation_snd]
    exact List.mem_append_right _ (routeChanged_mem_commitTail env route false)
  · intro htitle
    have hf := (handleNavigation_fields env
      { Router.construct options d with
        patterns := (Router.construct options d).routes.map fun route => (route.path, route)
        currentRoute := some route
        navListeners := (Router.construct options d).navListeners + 1
        popstateListeners := (Router.construct options d).popstateListeners + 1
        initialized := true }
      route false).2.2.2.2.2.2.2
    rw [hf]
    simp [htitle]

/-- C4 witness: a single route with non-empty title "Home" matched at
startup: one route-changed fires and the document title becomes "Home". -/
theorem init_fires_route_changed_once_witness :
    ((Router.init
        { test := fun pat p => pat == p, hasStartViewTransition := true,
          transitionFails := false }
        { pathname := "/", origin := "o" }
        (Router.construct
          { routes := [{ path := "/", title := "Home", render := (0 : Nat) }] }
          "old")).2.countP isRouteChanged = 1)
    ∧ Ev.routeChanged ({ path := "/", title := "Home", render := (0 : Nat) } : Route Nat)
        ∈ (Router.init
            { test := fun pat p => pat == p, hasStartViewTransition := true,
              transitionFails := false }
            { pathname := "/", origin := "o" }
            (Router.construct
              { routes := [{ path := "/", title := "Home", render := (0 : Nat) }] }
              "old")).2
    ∧ (Router.init
        { test := fun pat p => pat == p, hasStartViewTransition := true,
          transitionFails := false }
        { pathname := "/", origin := "o" }
        (Router.construct
          { routes := [{ path := "/", title := "Home", render := (0 : Nat) }] }
          "old")).1.documentTitle = "Home" := by
  have h := init_fires_route_changed_once
    { test := fun pat p => pat == p, hasStartViewTransition := true,
      transitionFails := false }
    { pathname := "/", origin := "o" }
    { routes := [{ path := "/", title := "Home", render := (0 : Nat) }] }
    "old" { path := "/", title := "Home", render := (0 : Nat) } (by decide)
  exact ⟨h.1, h.2.1, h.2.2 (by decide)⟩

/-- C4 counterexample: the route's title may be empty, in which case the
source skips the title update (`if (route.title)`): with prior document
title "old" and matched route ⟨"/", ""⟩, after init the displayed title is
still "old", not the route's title. -/
theorem init_title_not_always_set :
    (Router.matchRoute (fun pat p => pat == p)
        ([({ path := "/", title := "", render := (0 : Nat) } : Route Nat)].map
          fun r => (r.path, r)) "/"
      = some { path := "/", title := "", render := (0 : Nat) })
    ∧ (Router.init
        { test := fun pat p => pat == p, hasStartViewTransition := true,
          transitionFails := false }
        { pathname := "/", origin := "o" }
        (Router.construct
          { routes := [{ path := "/", title := "", render := (0 : Nat) }] }
          "old")).1.documentTitle
      ≠ ({ path := "/", title := "", render := (0 : Nat) } : Route Nat).title := by
  decide

/-- C5: a first init on a freshly constructed router registers exactly one
navigation listener and one popstate listener and builds the pattern table;
any later init call on the resulting state is a no-op returning the state
unchanged with an empty trace. -/
theorem init_idempotent (env envSecond : NavEnv) (loc locSecond : Location)
    (options : RouterOptions α) (d : String) :
    ((Router.init env loc (Router.construct options d)).1.navListeners = 1)
    ∧ ((Router.init env loc (Router.construct options d)).1.popstateListeners = 1)
    ∧ ((Router.init env loc (Router.construct options d)).1.patterns
        = options.routes.map fun route => (route.path, route))
    ∧ ((Router.init env loc (Router.construct options d)).1.initialized = true)
    ∧ (Router.init envSecond locSecond (Router.init env loc (Router.construct options d)).1
        = ((Router.init env loc (Router.construct options d)).1, [])) := by
  have hf := init_fst_fields env loc (Router.construct options d) rfl
  exact ⟨hf.1, hf.2.1, hf.2.2.1, hf.2.2.2.1,
    init_of_initialized envSecond locSecond _ hf.2.2.2.1⟩

/-- C6: the navigate listener claims interception for a route exactly when
the destination origin equals the current origin, the navigation is neither
a download nor a form submission, the event is interceptable, and the
destination pathname matches that route first in the pattern table; it
declines exactly when some guard fails or no registered pattern matches,
and a declined event leaves the router untouched and dispatches nothing. -/
theorem intercept_policy (env : NavEnv) (st : Router α) (loc : Location)
    (ev : NavigateEvent) :
    (∀ route : Route α,
      Router.interceptDecision env st loc ev = some route ↔
        (ev.destOrigin = loc.origin ∧ ev.downloadRequest = false ∧ ev.formData = false
          ∧ ev.canIntercept = true
          ∧ Router.matchRoute env.test st.patterns ev.destPathname = some route))
    ∧ (Router.interceptDecision env st loc ev = none ↔
        (ev.destOrigin ≠ loc.origin ∨ ev.downloadRequest = true ∨ ev.formData = true
          ∨ ev.canIntercept = false
          ∨ ∀ q ∈ st.patterns, env.test q.1 ev.destPathname = false))
    ∧ (Router.interceptDecision env st loc ev = none →
        Router.onNavigate env loc ev st = (st, [])) := by
  refine ⟨?_, ?_, ?_⟩
  · intro route
    unfold Router.interceptDecision
    by_cases h1 : ev.destOrigin = loc.origin <;>
      cases h2 : ev.downloadRequest <;> cases h3 : ev.formData <;>
        cases h4 : ev.canIntercept <;> simp [h1, h2, h3, h4]
  · unfold Router.interceptDecision
    by_cases h1 : ev.destOrigin = loc.origin <;>
      cases h2 : ev.downloadRequest <;> cases h3 : ev.formData <;>
        cases h4 : ev.canIntercept <;>
          simp [h1, h2, h3, h4, matchRoute_eq_none_iff]
  · intro h
    simp [Router.onNavigate, h]

/-- C6 witness: a cross-origin destination is declined and the handler
returns without touching the router. -/
theorem intercept_policy_witness :
    Router.onNavigate
        { test := fun pat p => pat == p, hasStartViewTransition := true,
          transitionFails := false }
        { pathname := "/", origin := "o" }
        { destOrigin := "elsewhere", destPathname := "/", downloadRequest := false,
          formData := false, canIntercept := true }
        (Router.construct
          { routes := [({ path := "/", title := "Home", render := (0 : Nat) } : Route Nat)] }
          "t")
      = (Router.construct
          { routes := [({ path := "/", title := "Home", render := (0 : Nat) } : Route Nat)] }
          "t", []) :=
  (intercept_policy
      { test := fun pat p => pat == p, hasStartViewTransition := true,
        transitionFails := false }
      (Router.construct
        { routes := [({ path := "/", title := "Home", render := (0 : Nat) } : Route Nat)] }
        "t")
      { pathname := "/", origin := "o" }
      { destOrigin := "elsewhere", destPathname := "/", downloadRequest := false,
        formData := false, canIntercept := true }).2.2 (by decide)

theorem handleNavigation_getLast (env : NavEnv) (st : Router α) (route : Route α)
    (skip : Bool) :
    (Router.handleNavigation env st route skip).2.getLast?
      = some (Ev.routeChanged route) := by
  rw [handleNavigation_snd, List.getLast?_append, commitTail_getLast]
  rfl

theorem mem_pathPairs {routes : List (Route α)} {pr : String × Route α}
    (h : pr ∈ routes.map fun route => (route.path, route)) : pr.2 ∈ routes := by
  rw [List.mem_map] at h
  obtain ⟨r, hr, rfl⟩ := h
  exact hr

theorem matchRoute_mem_of_table {test : String → String → Bool}
    {patterns : List (String × Route α)} {pathname : String} {route : Route α}
    {rs : List (Route α)} (hpat : ∀ pr ∈ patterns, pr.2 ∈ rs)
    (h : Router.matchRoute test patterns pathname = some route) : route ∈ rs := by
  have hmem := matchRoute_mem h
  rw [List.mem_map] at hmem
  obtain ⟨pr, hpr, rfl⟩ := hmem
  exact hpat pr hpr

theorem matchRoute_pathPairs_mem {test : String → String → Bool}
    {routes : List (Route α)} {pathname : String} {route : Route α}
    (h : Router.matchRoute test (routes.map fun r => (r.path, r)) pathname
        = some route) : route ∈ routes := by
  exact matchRoute_mem_of_table (fun pr hpr => mem_pathPairs hpr) h

theorem interceptDecision_some_matchRoute {env : NavEnv} {st : Router α}
    {loc : Location} {ev : NavigateEvent} {route : Route α}
    (h : Router.interceptDecision env st loc ev = some route) :
    Router.matchRoute env.test st.patterns ev.destPathname = some route := by
  unfold Router.interceptDecision at h
  split_ifs at h
  exact h

/-- One observable transition of a router instance: an init call, a
navigate event delivered to the navigate listener, or a popstate
notification delivered to the popstate listener, each under the
environment and location current at that moment. -/
inductive Router.Step : Router α → List (Ev α) → Router α → Prop where
  | initStep (env : NavEnv) (loc : Location) (st : Router α) :
      Router.Step st (Router.init env loc st).2 (Router.init env loc st).1
  | navEvent (env : NavEnv) (loc : Location) (ev : NavigateEvent) (st : Router α) :
      Router.Step st (Router.onNavigate env loc ev st).2
        (Router.onNavigate env loc ev st).1
  | popstate (env : NavEnv) (loc : Location) (st : Router α) :
      Router.Step st (Router.popstateHandler env loc st).2
        (Router.popstateHandler env loc st).1

/-- States a router constructed from `options` can reach. -/
inductive Router.Reachable (options : RouterOptions α) : Router α → Prop where
  | constructed (d : String) : Router.Reachable options (Router.construct options d)
  | step {st : Router α} {t : List (Ev α)} {stNext : Router α} :
      Router.Reachable options st → Router.Step st t stNext →
      Router.Reachable options stNext

/-- The inductive state invariant: routes are the constructor's, every
pattern-table entry points into them, the current route is one of them, and
an uninitialized instance has no current route and an empty table. -/
def RouterInv (options : RouterOptions α) (st : Router α) : Prop :=
  st.routes = options.routes
  ∧ (∀ pr ∈ st.patterns, pr.2 ∈ options.routes)
  ∧ (∀ route, st.currentRoute = some route → route ∈ options.routes)
  ∧ (st.initialized = false → st.currentRoute = none ∧ st.patterns = [])

theorem handleNavigation_inv {options : RouterOptions α} {st : Router α}
    {route : Route α} (env : NavEnv) (skip : Bool)
    (hroutes : st.routes = options.routes)
    (hpat : ∀ pr ∈ st.patterns, pr.2 ∈ options.routes)
    (hinit : st.initialized = true) (hroute : route ∈ options.routes) :
    RouterInv options (Router.handleNavigation env st route skip).1 := by
  have hf := handleNavigation_fields env st route skip
  refine ⟨?_, ?_, ?_, ?_⟩
  · rw [hf.2.2.1, hroutes]
  · rw [hf.2.1]; exact hpat
  · intro r hr
    rw [hf.1] at hr
    obtain rfl : route = r := by injection hr
    exact hroute
  · intro hfalse
    rw [hf.2.2.2.2.1, hinit] at hfalse
    simp at hfalse

theorem step_preserves_inv {options : RouterOptions α} {st stNext : Router α}
    {t : List (Ev α)} (hinv : RouterInv options st)
    (hstep : Router.Step st t stNext) : RouterInv options stNext := by
  obtain ⟨hroutes, hpat, hcur, huninit⟩ := hinv
  cases hstep with
  | initStep env loc =>
      by_cases hi : st.initialized
      · rw [init_of_initialized env loc st hi]
        exact ⟨hroutes, hpat, hcur, huninit⟩
      · have hi' : st.initialized = false := by simpa using hi
        rcases hm : Router.matchRoute env.test
            (st.routes.map fun route => (route.path, route)) loc.pathname
          with _ | route
        · rw [init_of_match_none env loc hi' hm]
          refine ⟨hroutes, ?_, ?_, ?_⟩
          · intro pr hpr
            rw [hroutes] at hpr
            exact mem_pathPairs hpr
          · intro r hr
            simp at hr
          · intro hfalse
            simp at hfalse
        · rw [init_of_match_some env loc hi' hm]
          rw [hroutes] at hm
          exact handleNavigation_inv env false hroutes
            (fun pr hpr => mem_pathPairs (hroutes ▸ hpr)) rfl
            (matchRoute_pathPairs_mem hm)
  | navEvent env loc ev =>
      rcases hd : Router.interceptDecision env st loc ev with _ | route
      · simp only [Router.onNavigate, hd]
        exact ⟨hroutes, hpat, hcur, huninit⟩
      · have hmatch := interceptDecision_some_matchRoute hd
        have hinit : st.initialized = true := by
          by_contra hni
          have hfalse : st.initialized = false := by simpa using hni
          rw [(huninit hfalse).2] at hmatch
          simp [Router.matchRoute] at hmatch
        simp only [Router.onNavigate, hd]
        exact handleNavigation_inv env false hroutes hpat hinit
          (matchRoute_mem_of_table hpat hmatch)
  | popstate env loc =>
      rcases hm : Router.matchRoute env.test st.patterns loc.pathname with _ | route
      · simp only [Router.popstateHandler, hm]
        exact ⟨hroutes, hpat, hcur, huninit⟩
      · have hinit : st.initialized = true := by
          by_contra hni
          have hfalse : st.initialized = false := by simpa using hni
          rw [(huninit hfalse).2] at hm
          simp [Router.matchRoute] at hm
        simp only [Router.popstateHandler, hm]
        by_cases hcond : st.currentRoute.map Route.path ≠ some route.path
        · rw [if_pos hcond]
          exact handleNavigation_inv env false hroutes hpat hinit
            (matchRoute_mem_of_table hpat hm)
        · rw [if_neg hcond]
          exact ⟨hroutes, hpat, hcur, huninit⟩

theorem reachable_inv {options : RouterOptions α} {st : Router α}
    (h : Router.Reachable options st) : RouterInv options st := by
  induction h with
  | constructed d =>
      exact ⟨rfl, by intro pr hpr; simp [Router.construct] at hpr,
        by intro r hr; simp [Router.construct] at hr, fun _ => ⟨rfl, rfl⟩⟩
  | step hreach hstep ih => exact step_preserves_inv ih hstep

/-- C7: at every reachable state, `currentRoute` is absent or a member of
the route list supplied at construction; and whenever an observable step
changes `currentRoute`, the new value is a registered route committed as
the terminal event of that step's trace — the `route-changed` event
carrying it. -/
theorem current_route_invariant (options : RouterOptions α) :
    (∀ st : Router α, Router.Reachable options st →
      st.currentRoute = none
        ∨ ∃ route ∈ options.routes, st.currentRoute = some route)
    ∧ (∀ (st stNext : Router α) (t : List (Ev α)),
        Router.Reachable options st → Router.Step st t stNext →
        stNext.currentRoute ≠ st.currentRoute →
        ∃ route, stNext.currentRoute = some route ∧ route ∈ options.routes
          ∧ t.getLast? = some (Ev.routeChanged route)) := by
  constructor
  · intro st hreach
    obtain ⟨_, _, hcur, _⟩ := reachable_inv hreach
    cases hc : st.currentRoute with
    | none => exact Or.inl rfl
    | some route => exact Or.inr ⟨route, hcur route hc, rfl⟩
  · intro st stNext t hreach hstep hne
    obtain ⟨_, _, hcurN, _⟩ := step_preserves_inv (reachable_inv hreach) hstep
    obtain ⟨_, _, _, huninit⟩ := reachable_inv hreach
    cases hstep with
    | initStep env loc =>
        by_cases hi : st.initialized
        · rw [init_of_initialized env loc st hi] at hne
          exact absurd rfl hne
        · have hi' : st.initialized = false := by simpa using hi
          rcases hm : Router.matchRoute env.test
              (st.routes.map fun route => (route.path, route)) loc.pathname
            with _ | route
          · rw [init_of_match_none env loc hi' hm] at hne
            rw [(huninit hi').1] at hne
            exact absurd rfl hne
          · rw [init_of_match_some env loc hi' hm] at hcurN ⊢
            have hf := (handleNavigation_fields env
              { st with
                patterns := st.routes.map fun route => (route.path, route)
                currentRoute := some route
                navListeners := st.navListeners + 1
                popstateListeners := st.popstateListeners + 1
                initialized := true }
              route false).1
            exact ⟨route, hf, hcurN route hf, handleNavigation_getLast env _ route false⟩
    | navEvent env loc ev =>
        rcases hd : Router.interceptDecision env st loc ev with _ | route
        · simp only [Router.onNavigate, hd] at hne
          exact absurd rfl hne
        · simp only [Router.onNavigate, hd] at hcurN ⊢
          have hf := (handleNavigation_fields env st route false).1
          exact ⟨route, hf, hcurN route hf, handleNavigation_getLast env st route false⟩
    | popstate env loc =>
        rcases hm : Router.matchRoute env.test st.patterns loc.pathname with _ | route
        · simp only [Router.popstateHandler, hm] at hne
          exact absurd rfl hne
        · simp only [Router.popstateHandler, hm] at hne hcurN ⊢
          by_cases hcond : st.currentRoute.map Route.path ≠ some route.path
          · rw [if_pos hcond] at hcurN ⊢
            have hf := (handleNavigation_fields env st route false).1
            exact ⟨route, hf, hcurN route hf, handleNavigation_getLast env st route false⟩
          · rw [if_neg hcond] at hne
            exact absurd rfl hne

/-- C7 witness: a freshly constructed single-route router is reachable and
its current route is absent or a member of the supplied route list. -/
theorem current_route_invariant_witness :
    (Router.construct
        ({ routes := [{ path := "/", title := "Home", render := (0 : Nat) }] }
          : RouterOptions Nat) "t").currentRoute = none
      ∨ ∃ route ∈ ({ routes := [{ path := "/", title := "Home", render := (0 : Nat) }] }
          : RouterOptions Nat).routes,
          (Router.construct
            ({ routes := [{ path := "/", title := "Home", render := (0 : Nat) }] }
              : RouterOptions Nat) "t").currentRoute = some route :=
  (current_route_invariant
      ({ routes := [{ path := "/", title := "Home", render := (0 : Nat) }] }
        : RouterOptions Nat)).1 _ (Router.Reachable.constructed "t")

/-- C8: at any state, render() is absent exactly when getCurrentRoute() is
absent, and when a route is current, render() is exactly that route's
render output; both are pure reads of the state. -/
theorem render_agrees_with_current (st : Router α) :
    (Router.render st = none ↔ Router.getCurrentRoute st = none)
    ∧ (∀ route : Route α, Router.getCurrentRoute st = some route →
        Router.render st = some route.render) := by
  unfold Router.render Router.getCurrentRoute
  cases st.currentRoute <;> simp

/-- C8 witness: with route ⟨"/", "Home", 7⟩ current, render returns 7. -/
theorem render_agrees_with_current_witness :
    Router.render
        ({ routes := [], patterns := [],
           currentRoute := some { path := "/", title := "Home", render := (7 : Nat) },
           initialized := true, plugins := [], navListeners := 1,
           popstateListeners := 1, documentTitle := "Home" } : Router Nat)
      = some 7 :=
  (render_agrees_with_current
      ({ routes := [], patterns := [],
         currentRoute := some { path := "/", title := "Home", render := (7 : Nat) },
         initialized := true, plugins := [], navListeners := 1,
         popstateListeners := 1, documentTitle := "Home" } : Router Nat)).2
    { path := "/", title := "Home", render := (7 : Nat) } rfl

/-- A URL value, embedded by its serialized href. -/
structure URL where
  href : String
deriving DecidableEq

/-- The `path` argument of `navigate`: a string or a URL object. -/
inductive PathInput where
  | str : String → PathInput
  | url : URL → PathInput
deriving DecidableEq

/-- History mode of a navigation request. -/
inductive HistoryMode where
  | auto : HistoryMode
  | push : HistoryMode
  | replace : HistoryMode
deriving DecidableEq

/-- The request `navigate` issues to the navigation observer's navigate
operation: target href, history mode, view-transition info hint, optional
state payload. The call then awaits the request's finished signal. -/
structure NavigateRequest (σ : Type) where
  href : String
  history : HistoryMode
  infoViewTransition : Bool
  state : Option σ
deriving DecidableEq

/-- `Router.navigate`: a string path is resolved against the current origin
by the environment's URL constructor (`resolve`), a URL object is used
as-is; the navigation request carries the resolved href, push-history
semantics, the view-transition hint, and the optional state payload. -/
def Router.navigate (resolve : String → String → URL) (origin : String)
    (path : PathInput) (state : Option σ) : NavigateRequest σ :=
  match path with
  | PathInput.str s =>
      { href := (resolve s origin).href, history := HistoryMode.push,
        infoViewTransition := true, state := state }
  | PathInput.url u =>
      { href := u.href, history := HistoryMode.push,
        infoViewTransition := true, state := state }

/-- C9: navigate on a path string issues exactly the request that navigate
on the URL resolved from it against the current origin issues — same
absolute href, push history, transition-intent hint, and state payload. -/
theorem navigate_string_url_equivalent (σ : Type) :
    ∀ (resolve : String → String → URL) (origin p : String) (state : Option σ),
    (Router.navigate resolve origin (PathInput.str p) state
        = Router.navigate resolve origin (PathInput.url (resolve p origin)) state)
    ∧ (Router.navigate resolve origin (PathInput.str p) state).href
        = (resolve p origin).href
    ∧ (Router.navigate resolve origin (PathInput.str p) state).history
        = HistoryMode.push
    ∧ (Router.navigate resolve origin (PathInput.str p) state).infoViewTransition
        = true
    ∧ (Router.navigate resolve origin (PathInput.str p) state).state = state := by
  intro resolve origin p state
  exact ⟨rfl, rfl, rfl, rfl, rfl⟩

/-- C10: construction stores configuration only: the pattern table is empty
(so matchRoute misses every pathname), no route is current, render is
absent, no listener is registered, the init guard is down, and the document
title is untouched. -/
theorem construct_stores_configuration_only (α : Type) :
    ∀ (options : RouterOptions α) (d : String) (test : String → String → Bool)
      (pathname : String),
    ((Router.construct options d).patterns = [])
    ∧ (Router.matchRoute test (Router.construct options d).patterns pathname = none)
    ∧ (Router.getCurrentRoute (Router.construct options d) = none)
    ∧ (Router.render (Router.construct options d) = none)
    ∧ ((Router.construct options d).navListeners = 0)
    ∧ ((Router.construct options d).popstateListeners = 0)
    ∧ ((Router.construct options d).initialized = false)
    ∧ ((Router.construct options d).documentTitle = d)
    ∧ ((Router.construct options d).routes = options.routes)
    ∧ ((Router.construct options d).plugins = options.plugins.getD []) := by
  intro options d test pathname
  exact ⟨rfl, rfl, rfl, rfl, rfl, rfl, rfl, rfl, rfl, rfl⟩

end WebRouter
